import Mathlib

/-!
Verification of the RabbitMQ manager
(`src/thc_devops_toolkit/infrastructure/rabbitmq.py`).

The Python source is shallowly embedded: the mutable manager object becomes
an explicit state record, the worker loops become step functions over an
outcome oracle describing what the external broker client did, and every
external call (connect, declare, publish, close, stop_consuming, join)
is recorded as an emitted event so that theorems can speak about the order
and shape of the side effects.
-/

namespace RabbitMQ

/-- A message body (`bytes` in the source) modelled as a list of byte values. -/
abbrev Msg := List Nat

/-- `queue.Queue` from the Python standard library, restricted to the
operations the source uses: FIFO `put` (append at the tail) and `get`
(take from the head, raising `Empty` when the queue is empty). -/
structure PyQueue where
  items : List Msg
deriving DecidableEq, Repr

/-- The empty queue, as produced by `Queue()`. -/
def PyQueue.empty : PyQueue := ⟨[]⟩

/-- `Queue.put(x)`: appends at the tail (FIFO back). -/
def PyQueue.put (q : PyQueue) (x : Msg) : PyQueue := ⟨q.items ++ [x]⟩

/-- `Queue.get(...)`: returns the head and the remaining queue, or `none`
when the queue is empty (the `Empty` exception). -/
def PyQueue.get (q : PyQueue) : Option (Msg × PyQueue) :=
  match q.items with
  | [] => none
  | x :: xs => some (x, ⟨xs⟩)

/-- The `RabbitMQActions` enum of the source: `SEND` and `RECV`. -/
inductive RabbitMQActions where
  | SEND
  | RECV
deriving DecidableEq, Repr

/-- The dynamically typed `action` argument position of `register`.
Python lets a caller pass any object here; a value that is not a member of
the `RabbitMQActions` enum falls through both equality tests into the
final `else` branch. `nonEnum tag` stands for such a foreign value. -/
inductive ActionVal where
  | enum (a : RabbitMQActions)
  | nonEnum (tag : Nat)
deriving DecidableEq, Repr

/-- The opaque `BlockingChannel` handle, identified by a numeric id. -/
abbrev ChannelHandle := Nat

/-- `RabbitMQConfig` dataclass. `message_queue` is checked against `None`
by `register`, so the field is an `Option`; the dataclass constructor
always fills it with a fresh queue (see `RabbitMQConfig.make`). -/
structure RabbitMQConfig where
  host : String
  port : Nat
  user : String
  password : String
  exchange_name : String
  exchange_type : String
  routing_key : String
  tls : Bool
  message_queue : Option PyQueue
  channel : Option ChannelHandle
deriving DecidableEq, Repr

/-- The dataclass `__init__`: `message_queue` has
`field(default_factory=Queue, init=False)` and `channel` has
`field(default=None, init=False)`, so neither is a constructor parameter;
every constructed config gets a fresh empty queue and a null channel. -/
def RabbitMQConfig.make (host : String) (port : Nat) (user password : String)
    (exchange_name exchange_type routing_key : String) (tls : Bool) : RabbitMQConfig :=
  { host := host
    port := port
    user := user
    password := password
    exchange_name := exchange_name
    exchange_type := exchange_type
    routing_key := routing_key
    tls := tls
    message_queue := some PyQueue.empty
    channel := none }

/-- A Python `dict[str, RabbitMQConfig]` as an association list in
insertion order (lookup by key, insert appends). -/
abbrev ConfigDict := List (String × RabbitMQConfig)

/-- Dictionary membership test (`chan_id in chan_dict`). -/
def ConfigDict.lookup (d : ConfigDict) (k : String) : Option RabbitMQConfig :=
  match d with
  | [] => none
  | (k', v) :: rest => if k' = k then some v else ConfigDict.lookup rest k

/-- `chan_dict[chan_id] = config` on a fresh key: appends the binding. -/
def ConfigDict.insert (d : ConfigDict) (k : String) (v : RabbitMQConfig) : ConfigDict :=
  d ++ [(k, v)]

/-- Number of entries stored under a key. -/
def ConfigDict.countKey (d : ConfigDict) (k : String) : Nat :=
  (d.filter (fun p => p.1 = k)).length

/-- A worker thread handle recorded in `self.threads`. `aliveAfterJoin`
is the externally determined fact of whether the thread is still alive
when `join(timeout=5.0)` returns. -/
structure WorkerThread where
  name : String
  aliveAfterJoin : Bool
deriving DecidableEq, Repr

/-- The mutable state of a `RabbitMQManager` instance. -/
structure RabbitMQManager where
  senders : ConfigDict
  receivers : ConfigDict
  threads : List WorkerThread
  shutdown_event : Bool
deriving DecidableEq, Repr

/-- `RabbitMQManager.__init__`: empty registries, no threads, event clear. -/
def RabbitMQManager.init : RabbitMQManager :=
  { senders := [], receivers := [], threads := [], shutdown_event := false }

/-- The channel identity computed by `register`:
`"/".join([config.exchange_name, config.routing_key])`. -/
def chanId (config : RabbitMQConfig) : String :=
  config.exchange_name ++ "/" ++ config.routing_key

/-- `RabbitMQManager.register`. Returns the boolean result together with
the updated manager state. Every operation in the source body (string
comparison, enum comparison, dict membership, dict insert, string join,
logging) is non-raising, so the embedding is a total function with no
error outcome. -/
def RabbitMQManager.register (m : RabbitMQManager) (action : ActionVal) (config : RabbitMQConfig) :
    Bool × RabbitMQManager :=
  if config.message_queue.isNone ∨ config.exchange_name = "" ∨ config.routing_key = "" then
    (false, m)
  else
    match action with
    | .enum .SEND =>
        let cid := chanId config
        match ConfigDict.lookup m.senders cid with
        | none => (true, { m with senders := ConfigDict.insert m.senders cid config })
        | some _ => (false, m)
    | .enum .RECV =>
        let cid := chanId config
        match ConfigDict.lookup m.receivers cid with
        | none => (true, { m with receivers := ConfigDict.insert m.receivers cid config })
        | some _ => (false, m)
    | .nonEnum _ => (false, m)

/-- A config is valid for registration: queue present, nonempty exchange
name, nonempty routing key. -/
def validConfig (config : RabbitMQConfig) : Prop :=
  config.message_queue.isSome ∧ config.exchange_name ≠ "" ∧ config.routing_key ≠ ""

instance (config : RabbitMQConfig) : Decidable (validConfig config) := by
  unfold validConfig; infer_instance

/-- The registry dict that a role selects. -/
def RabbitMQManager.dictOf (m : RabbitMQManager) (a : RabbitMQActions) : ConfigDict :=
  match a with
  | .SEND => m.senders
  | .RECV => m.receivers

/-- Loop control after one iteration of a worker loop: go around again or
leave the `while` loop. -/
inductive Ctl where
  | loopAgain
  | exitLoop
deriving DecidableEq, Repr

/-- Where (if anywhere) the broker client raised during one iteration of
the sender loop, after the queue `get` succeeded. The attempted call and
everything before it still happened. -/
inductive SendOutcome where
  | ok
  | failConnect
  | failChannelOpen
  | failDeclare
  | failPublish
  | failClose
deriving DecidableEq, Repr

/-- `.ok` is the only non-raising outcome. -/
def SendOutcome.isFailure : SendOutcome → Bool
  | .ok => false
  | _ => true

/-- Observable effects of one sender-loop iteration, in program order.
`connId` identifies the `pika.BlockingConnection` object created by that
iteration's `_connect` call. -/
inductive SendEvent where
  | dequeue (data : Msg)
  | connect (connId : Nat)
  | openChannel (connId : Nat)
  | declareExchange (name ty : String)
  | publish (exchange rk : String) (body : Msg)
  | logSent
  | closeConn (connId : Nat)
  | logError
  | sleep (t : Nat)
  | requeue (data : Msg)
deriving DecidableEq, Repr

/-- Result of one iteration of `RabbitMQManager.send`'s `while` body. -/
structure SendStep where
  queue : PyQueue
  events : List SendEvent
  ctl : Ctl
deriving DecidableEq, Repr

/-- The events attempted up to and including the raising call, for each
failing outcome (the `data` variable is already bound at every one of
these points, so the `if "data" in locals()` requeue guard is true). -/
def failPrefixEvents (config : RabbitMQConfig) (data : Msg) (connId : Nat) :
    SendOutcome → List SendEvent
  | .ok => []
  | .failConnect => [.dequeue data, .connect connId]
  | .failChannelOpen => [.dequeue data, .connect connId, .openChannel connId]
  | .failDeclare =>
      [.dequeue data, .connect connId, .openChannel connId,
       .declareExchange config.exchange_name config.exchange_type]
  | .failPublish =>
      [.dequeue data, .connect connId, .openChannel connId,
       .declareExchange config.exchange_name config.exchange_type,
       .publish config.exchange_name config.routing_key data]
  | .failClose =>
      [.dequeue data, .connect connId, .openChannel connId,
       .declareExchange config.exchange_name config.exchange_type,
       .publish config.exchange_name config.routing_key data,
       .logSent, .closeConn connId]

/-- One iteration of the `while` body of `RabbitMQManager.send`.
`shutdownAtTop` is the shutdown flag sampled by the `while` condition;
`shutdownAtError` is the flag re-sampled inside the generic `except`
branch (the flag is written concurrently by `shutdown`, so the two samples
are independent inputs). An empty queue is the `queue.Empty` timeout,
caught by `except Empty: continue`. On any other error the worker logs,
sleeps 10 seconds, then calls `message_queue.put(data)` — a FIFO tail
append — unless the shutdown flag is now set, in which case it breaks
without requeueing. -/
def sendIter (shutdownAtTop shutdownAtError : Bool) (config : RabbitMQConfig)
    (q : PyQueue) (outcome : SendOutcome) (connId : Nat) : SendStep :=
  if shutdownAtTop then ⟨q, [], .exitLoop⟩
  else
    match q.get with
    | none => ⟨q, [], .loopAgain⟩
    | some (data, q') =>
        match outcome with
        | .ok =>
            ⟨q',
             [.dequeue data, .connect connId, .openChannel connId,
              .declareExchange config.exchange_name config.exchange_type,
              .publish config.exchange_name config.routing_key data,
              .logSent, .closeConn connId],
             .loopAgain⟩
        | o =>
            if shutdownAtError then ⟨q', failPrefixEvents config data connId o, .exitLoop⟩
            else
              ⟨q'.put data,
               failPrefixEvents config data connId o ++ [.logError, .sleep 10, .requeue data],
               .loopAgain⟩

/-- Several iterations of the sender loop with the shutdown flag never
set, one broker outcome per iteration, the connection of iteration `i`
numbered `connId + i`. -/
def sendRun (config : RabbitMQConfig) (q : PyQueue) (outs : List SendOutcome)
    (connId : Nat) : PyQueue × List SendEvent :=
  match outs with
  | [] => (q, [])
  | o :: rest =>
      let s := sendIter false false config q o connId
      let r := sendRun config s.queue rest (connId + 1)
      (r.1, s.events ++ r.2)

/-- The event block of one fully successful publish iteration. -/
def okBlock (config : RabbitMQConfig) (connId : Nat) (data : Msg) : List SendEvent :=
  [.dequeue data, .connect connId, .openChannel connId,
   .declareExchange config.exchange_name config.exchange_type,
   .publish config.exchange_name config.routing_key data,
   .logSent, .closeConn connId]

/-- The concatenated trace of successive successful publishes. -/
def okTrace (config : RabbitMQConfig) (connId : Nat) : List Msg → List SendEvent
  | [] => []
  | data :: rest => okBlock config connId data ++ okTrace config (connId + 1) rest

/-- Attempt of `config.message_queue.put(body)` inside the receiver
callback: raises when the queue attribute is `None` or when the external
fault injected by `putFails` occurs; otherwise appends `body`. -/
def queuePutAttempt (mq : Option PyQueue) (putFails : Bool) (body : Msg) :
    Except Unit PyQueue :=
  match mq with
  | none => .error ()
  | some q => if putFails then .error () else .ok (q.put body)

/-- The `callback` closure inside `RabbitMQManager.recv`: tries the queue
put; any exception is caught by the broad `except`, logged, and swallowed,
so the callback itself never raises — its result is a plain pair of the
(possibly updated) config and a flag recording whether an error was
logged. -/
def recvCallback (config : RabbitMQConfig) (putFails : Bool) (body : Msg) :
    RabbitMQConfig × Bool :=
  match queuePutAttempt config.message_queue putFails body with
  | .ok q' => ({ config with message_queue := some q' }, false)
  | .error _ => (config, true)

/-- `channel.start_consuming()` invoking the callback once per delivery:
each delivery is a body paired with whether its local queue put fails.
Returns the final config and the number of logged local errors. Because
the callback never raises, every delivery in the list is processed. -/
def consumeDeliveries (config : RabbitMQConfig) (deliveries : List (Msg × Bool)) :
    RabbitMQConfig × Nat :=
  match deliveries with
  | [] => (config, 0)
  | (body, fails) :: rest =>
      let r := recvCallback config fails body
      let rec' := consumeDeliveries r.1 rest
      (rec'.1, (if r.2 then 1 else 0) + rec'.2)

/-- How one iteration of the receiver loop ends. `consumeStopped` is
`start_consuming()` returning normally after a `stop_consuming()` request;
`errBeforeChannelSet` is a raise in `_connect` or `connection.channel()`,
before `config.channel` is assigned; `errAfterChannelSet` is a raise in
exchange/queue declaration, binding, consume setup, or the consume call
itself, after `config.channel` was assigned. -/
inductive RecvOutcome where
  | consumeStopped
  | errBeforeChannelSet
  | errAfterChannelSet
deriving DecidableEq, Repr

/-- Observable effects of one receiver-loop iteration. -/
inductive RecvEvent where
  | connectR (connId : Nat)
  | setChannel (h : ChannelHandle)
  | declareAndBind
  | consuming
  | logErrorR
  | sleepR (t : Nat)
deriving DecidableEq, Repr

/-- Result of one iteration of `RabbitMQManager.recv`'s `while` body. -/
structure RecvStep where
  config : RabbitMQConfig
  events : List RecvEvent
  ctl : Ctl
deriving DecidableEq, Repr

/-- One iteration of the `while` body of `RabbitMQManager.recv`. `h` is
the handle of the channel object this iteration's `connection.channel()`
would produce. The body assigns `config.channel = channel` right after
opening the channel and never assigns it again — in particular no branch
resets it to `None`, so after an error the field keeps whatever value it
had when the error was raised. -/
def recvIter (shutdownAtTop shutdownAtError : Bool) (config : RabbitMQConfig)
    (outcome : RecvOutcome) (h : ChannelHandle) : RecvStep :=
  if shutdownAtTop then ⟨config, [], .exitLoop⟩
  else
    match outcome with
    | .consumeStopped =>
        ⟨{ config with channel := some h },
         [.connectR h, .setChannel h, .declareAndBind, .consuming], .loopAgain⟩
    | .errBeforeChannelSet =>
        if shutdownAtError then ⟨config, [.connectR h], .exitLoop⟩
        else ⟨config, [.connectR h, .logErrorR, .sleepR 10], .loopAgain⟩
    | .errAfterChannelSet =>
        let c' := { config with channel := some h }
        if shutdownAtError then ⟨c', [.connectR h, .setChannel h], .exitLoop⟩
        else ⟨c', [.connectR h, .setChannel h, .logErrorR, .sleepR 10], .loopAgain⟩

/-- Observable effects of `RabbitMQManager.shutdown`. -/
inductive ShutdownEvent where
  | setFlag
  | stopConsuming (h : ChannelHandle)
  | joinThread (name : String) (timeout : Nat)
  | warnTimeout (name : String)
  | doneLog
deriving DecidableEq, Repr

/-- `RabbitMQManager.shutdown`: sets the shutdown event, calls
`stop_consuming()` on every receiver config whose `channel` field is not
`None` (in registry order), then `join(timeout=5.0)`s every recorded
thread, logging a warning for each thread still alive afterwards, and
finally logs completion. Every operation here (event set, timed join,
liveness check, logging) is non-raising, and the broker-client
`stop_consuming` request is modelled as an emitted event, so the function
is total and returns a plain pair — there is no error outcome. -/
def RabbitMQManager.shutdown (m : RabbitMQManager) : RabbitMQManager × List ShutdownEvent :=
  let stops := m.receivers.filterMap (fun p => p.2.channel.map ShutdownEvent.stopConsuming)
  let joins := m.threads.flatMap (fun t =>
    ShutdownEvent.joinThread t.name 5 ::
      (if t.aliveAfterJoin then [ShutdownEvent.warnTimeout t.name] else []))
  ({ m with shutdown_event := true },
   ShutdownEvent.setFlag :: (stops ++ joins ++ [ShutdownEvent.doneLog]))

/-- A config whose exchange name itself contains the identity separator:
exchange `a/b`, routing key `c`. -/
def collisionConfigA : RabbitMQConfig :=
  RabbitMQConfig.make "h" 5672 "u" "p" "a/b" "direct" "c" false

/-- A config with the other split of the same joined identity:
exchange `a`, routing key `b/c`. -/
def collisionConfigB : RabbitMQConfig :=
  RabbitMQConfig.make "h" 5672 "u" "p" "a" "direct" "b/c" false

/-! Helper lemmas about the association-list dictionary. -/

theorem ConfigDict.lookup_append (d e : ConfigDict) (k : String) :
    ConfigDict.lookup (d ++ e) k =
      (match ConfigDict.lookup d k with
       | some v => some v
       | none => ConfigDict.lookup e k) := by
  induction d with
  | nil => simp [ConfigDict.lookup]
  | cons p rest ih =>
      obtain ⟨k', v⟩ := p
      by_cases hk : k' = k <;> simp [ConfigDict.lookup, hk, ih]

theorem ConfigDict.countKey_append (d e : ConfigDict) (k : String) :
    ConfigDict.countKey (d ++ e) k = ConfigDict.countKey d k + ConfigDict.countKey e k := by
  simp [ConfigDict.countKey, List.filter_append]

theorem ConfigDict.countKey_eq_zero (d : ConfigDict) (k : String)
    (h : ConfigDict.lookup d k = none) : ConfigDict.countKey d k = 0 := by
  induction d with
  | nil => simp [ConfigDict.countKey]
  | cons p rest ih =>
      obtain ⟨k', v⟩ := p
      by_cases hk : k' = k
      · simp [ConfigDict.lookup, hk] at h
      · simp [ConfigDict.lookup, hk] at h
        simp [ConfigDict.countKey, List.filter, hk, ConfigDict.countKey] at ih ⊢
        exact ih h

theorem ConfigDict.countKey_single (k : String) (v : RabbitMQConfig) :
    ConfigDict.countKey [(k, v)] k = 1 := by
  simp [ConfigDict.countKey]

/-- A valid config makes the invalid-input guard of `register` false. -/
theorem validConfig_guard_false (c : RabbitMQConfig) (h : validConfig c) :
    ¬(c.message_queue = none ∨ c.exchange_name = "" ∨ c.routing_key = "") := by
  obtain ⟨h1, h2, h3⟩ := h
  push_neg
  exact ⟨Option.isSome_iff_ne_none.mp h1, h2, h3⟩

end RabbitMQ

namespace RabbitMQ

/-- C3: registration is idempotent-safe. For any valid config whose
identity is not yet registered under the requested role, the first
`register` returns `true` and inserts the config; an immediately
following `register` with a valid config of the same role and the same
channel identity returns `false`, leaves the manager state unchanged, and
the registry holds exactly one entry for that identity. -/
theorem register_idempotent_safe (m : RabbitMQManager) (a : RabbitMQActions)
    (c c' : RabbitMQConfig) (hc : validConfig c) (hc' : validConfig c')
    (hid : chanId c' = chanId c)
    (hfresh : ConfigDict.lookup (m.dictOf a) (chanId c) = none) :
    (m.register (.enum a) c).1 = true ∧
    ConfigDict.lookup ((m.register (.enum a) c).2.dictOf a) (chanId c) = some c ∧
    ((m.register (.enum a) c).2.register (.enum a) c').1 = false ∧
    ((m.register (.enum a) c).2.register (.enum a) c').2 = (m.register (.enum a) c).2 ∧
    ConfigDict.countKey ((m.register (.enum a) c).2.dictOf a) (chanId c) = 1 := by
  have hg := validConfig_guard_false c hc
  have hg' := validConfig_guard_false c' hc'
  have hz := ConfigDict.countKey_eq_zero _ _ hfresh
  cases a <;>
    simp only [RabbitMQManager.dictOf] at hfresh hz ⊢ <;>
    simp [RabbitMQManager.register, hg, hg', hfresh, hid, ConfigDict.insert,
      ConfigDict.lookup_append, ConfigDict.countKey_append, ConfigDict.lookup,
      ConfigDict.countKey_single, hz]

/-- C3 witness: a concrete run of the idempotence theorem. -/
theorem register_idempotent_safe_witness :
    let c := RabbitMQConfig.make "h" 5672 "u" "p" "ex" "direct" "rk" false
    (RabbitMQManager.init.register (.enum .SEND) c).1 = true ∧
    ConfigDict.lookup ((RabbitMQManager.init.register (.enum .SEND) c).2.dictOf .SEND)
      (chanId c) = some c ∧
    ((RabbitMQManager.init.register (.enum .SEND) c).2.register (.enum .SEND) c).1 = false ∧
    ((RabbitMQManager.init.register (.enum .SEND) c).2.register (.enum .SEND) c).2 =
      (RabbitMQManager.init.register (.enum .SEND) c).2 ∧
    ConfigDict.countKey ((RabbitMQManager.init.register (.enum .SEND) c).2.dictOf .SEND)
      (chanId c) = 1 :=
  register_idempotent_safe RabbitMQManager.init .SEND _ _
    (by decide) (by decide) rfl (by decide)

/-- C4: `register` rejects invalid input with `false` and no side effect:
when the message queue is absent, the exchange name is empty, the routing
key is empty, or the role value is neither `SEND` nor `RECV`, the result
is `false` and the manager state is returned unchanged (the function is
total, so no exception is raised). -/
theorem register_rejects_invalid (m : RabbitMQManager) (a : ActionVal)
    (c : RabbitMQConfig)
    (h : c.message_queue = none ∨ c.exchange_name = "" ∨ c.routing_key = "" ∨
         (a ≠ .enum .SEND ∧ a ≠ .enum .RECV)) :
    m.register a c = (false, m) := by
  rcases h with h | h | h | ⟨h1, h2⟩
  · simp [RabbitMQManager.register, h]
  · simp [RabbitMQManager.register, h]
  · simp [RabbitMQManager.register, h]
  · cases a with
    | enum x => cases x with
      | SEND => exact absurd rfl h1
      | RECV => exact absurd rfl h2
    | nonEnum t =>
        by_cases hq : c.message_queue.isNone = true ∨ c.exchange_name = "" ∨ c.routing_key = ""
        · simp [RabbitMQManager.register, hq]
        · simp [RabbitMQManager.register, hq]

/-- C4 witness: a config with an empty exchange name, and a non-enum role
value with a valid config, are both rejected without state change. -/
theorem register_rejects_invalid_witness :
    RabbitMQManager.init.register (.enum .SEND)
      (RabbitMQConfig.make "h" 5672 "u" "p" "" "direct" "rk" false) =
      (false, RabbitMQManager.init) ∧
    RabbitMQManager.init.register (.nonEnum 0)
      (RabbitMQConfig.make "h" 5672 "u" "p" "ex" "direct" "rk" false) =
      (false, RabbitMQManager.init) :=
  ⟨register_rejects_invalid RabbitMQManager.init (.enum .SEND) _ (Or.inr (Or.inl rfl)),
   register_rejects_invalid RabbitMQManager.init (.nonEnum 0) _
     (Or.inr (Or.inr (Or.inr ⟨by decide, by decide⟩)))⟩

/-- C8: the channel identity joins exchange name and routing key with the
character `/`, so distinct (exchangeName, routingKey) pairs can collide:
with exchange `a/b` + key `c` and exchange `a` + key `b/c`, the two
configs differ in both fields yet share the identity `a/b/c`; registering
the first under SEND returns `true`, registering the second under the
same role then returns `false`. -/
theorem chan_identity_separator_collision :
    collisionConfigA.exchange_name ≠ collisionConfigB.exchange_name ∧
    collisionConfigA.routing_key ≠ collisionConfigB.routing_key ∧
    chanId collisionConfigA = chanId collisionConfigB ∧
    chanId collisionConfigA = "a/b/c" ∧
    (RabbitMQManager.init.register (.enum .SEND) collisionConfigA).1 = true ∧
    ((RabbitMQManager.init.register (.enum .SEND) collisionConfigA).2.register
        (.enum .SEND) collisionConfigB).1 = false := by
  refine ⟨by decide, by decide, ?_, ?_, ?_, ?_⟩ <;> decide

/-- C9: the dataclass constructor initializes `message_queue` with a
fresh queue (it is not an `__init__` parameter), so for every normally
constructed config the `message_queue is None` test in `register` is
false — that rejection branch is unreachable for such configs. -/
theorem constructed_config_queue_never_none (host : String) (port : Nat)
    (user password exchange_name exchange_type routing_key : String) (tls : Bool) :
    (RabbitMQConfig.make host port user password exchange_name exchange_type
        routing_key tls).message_queue = some PyQueue.empty ∧
    ((RabbitMQConfig.make host port user password exchange_name exchange_type
        routing_key tls).message_queue.isNone = true ∨
     exchange_name = "" ∨ routing_key = "") =
      (exchange_name = "" ∨ routing_key = "") := by
  constructor
  · rfl
  · simp [RabbitMQConfig.make]

/-- C10: the sender and receiver registries are independent. From the
empty manager, registering a valid config under SEND and then a valid
config with the same channel identity under RECV both succeed; the SEND
call leaves `receivers` untouched and the RECV call leaves `senders`
untouched; moreover the outcome and the touched mapping of each call
depend only on that call's own mapping, never on the other one. -/
theorem registries_independent (c1 c2 : RabbitMQConfig)
    (h1 : validConfig c1) (h2 : validConfig c2) (_hid : chanId c2 = chanId c1) :
    (RabbitMQManager.init.register (.enum .SEND) c1).1 = true ∧
    ((RabbitMQManager.init.register (.enum .SEND) c1).2.register (.enum .RECV) c2).1 =
      true ∧
    (RabbitMQManager.init.register (.enum .SEND) c1).2.receivers =
      RabbitMQManager.init.receivers ∧
    ((RabbitMQManager.init.register (.enum .SEND) c1).2.register (.enum .RECV) c2).2.senders =
      (RabbitMQManager.init.register (.enum .SEND) c1).2.senders ∧
    (RabbitMQManager.init.register (.enum .SEND) c1).2.senders = [(chanId c1, c1)] ∧
    ((RabbitMQManager.init.register (.enum .SEND) c1).2.register (.enum .RECV) c2).2.receivers =
      [(chanId c2, c2)] ∧
    (∀ m m' : RabbitMQManager, m.senders = m'.senders →
      (m.register (.enum .SEND) c1).1 = (m'.register (.enum .SEND) c1).1 ∧
      (m.register (.enum .SEND) c1).2.senders = (m'.register (.enum .SEND) c1).2.senders) ∧
    (∀ m m' : RabbitMQManager, m.receivers = m'.receivers →
      (m.register (.enum .RECV) c2).1 = (m'.register (.enum .RECV) c2).1 ∧
      (m.register (.enum .RECV) c2).2.receivers =
        (m'.register (.enum .RECV) c2).2.receivers) := by
  have hg1 := validConfig_guard_false c1 h1
  have hg2 := validConfig_guard_false c2 h2
  refine ⟨?_, ?_, ?_, ?_, ?_, ?_, ?_, ?_⟩
  · simp [RabbitMQManager.register, hg1, RabbitMQManager.init, ConfigDict.lookup]
  · simp [RabbitMQManager.register, hg1, hg2, RabbitMQManager.init, ConfigDict.lookup]
  · simp [RabbitMQManager.register, hg1, RabbitMQManager.init, ConfigDict.lookup]
  · simp [RabbitMQManager.register, hg1, hg2, RabbitMQManager.init, ConfigDict.lookup,
      ConfigDict.insert]
  · simp [RabbitMQManager.register, hg1, RabbitMQManager.init, ConfigDict.lookup,
      ConfigDict.insert]
  · simp [RabbitMQManager.register, hg1, hg2, RabbitMQManager.init, ConfigDict.lookup,
      ConfigDict.insert]
  · intro m m' hmm
    constructor <;>
      simp [RabbitMQManager.register, hg1, hmm, ConfigDict.insert] <;>
      cases hs : ConfigDict.lookup m'.senders (chanId c1) <;> simp [hmm]
  · intro m m' hmm
    constructor <;>
      simp [RabbitMQManager.register, hg2, hmm, ConfigDict.insert] <;>
      cases hs : ConfigDict.lookup m'.receivers (chanId c2) <;> simp [hmm]

/-- C10 witness: the independence theorem at a concrete pair of configs
sharing the identity `ex/rk`. -/
theorem registries_independent_witness :
    let c := RabbitMQConfig.make "h" 5672 "u" "p" "ex" "direct" "rk" false
    (RabbitMQManager.init.register (.enum .SEND) c).1 = true ∧
    ((RabbitMQManager.init.register (.enum .SEND) c).2.register (.enum .RECV) c).1 = true :=
  let c := RabbitMQConfig.make "h" 5672 "u" "p" "ex" "direct" "rk" false
  ⟨(registries_independent c c (by decide) (by decide) rfl).1,
   (registries_independent c c (by decide) (by decide) rfl).2.1⟩

/-- C1 counterexample: with outbound queue `[[1], [2]]` and a publish
failure (shutdown not set), the failed message `[1]` is requeued at the
BACK: the resulting queue is `[[2], [1]]`, so the requeued message does
not precede the message still in the queue, contradicting the claimed
front-of-queue requeue. -/
theorem sender_requeue_front_counterexample :
    let cfg := RabbitMQConfig.make "h" 5672 "u" "p" "ex" "direct" "rk" false
    let r := sendIter false false cfg ⟨[[1], [2]]⟩ .failPublish 0
    r.queue.items = [[2], [1]] ∧
    r.queue.items.head? ≠ some [1] ∧
    r.ctl = .loopAgain := by
  decide

/-- C1 amended: on any connection/publish error with the shutdown signal
not set, the sender logs the error, sleeps the fixed 10-unit backoff, and
then pushes the dequeued message onto the BACK of the outbound queue
(behind every message still in the queue) before resuming the loop. -/
theorem sender_error_backoff_and_requeue_back (config : RabbitMQConfig)
    (q : PyQueue) (data : Msg) (rest : List Msg) (o : SendOutcome) (connId : Nat)
    (hq : q.items = data :: rest) (hf : o.isFailure = true) :
    sendIter false false config q o connId =
      ⟨⟨rest ++ [data]⟩,
       failPrefixEvents config data connId o ++
         [.logError, .sleep 10, .requeue data],
       .loopAgain⟩ := by
  obtain ⟨items⟩ := q
  simp only [PyQueue.mk.injEq] at hq
  subst hq
  cases o <;> simp [sendIter, PyQueue.get, PyQueue.put, SendOutcome.isFailure] at hf ⊢

/-- C1 amended witness: the back-requeue equation at a concrete queue and
a concrete publish failure. -/
theorem sender_error_backoff_and_requeue_back_witness :
    let cfg := RabbitMQConfig.make "h" 5672 "u" "p" "ex" "direct" "rk" false
    sendIter false false cfg ⟨[[1], [2]]⟩ .failPublish 0 =
      ⟨⟨[[2], [1]]⟩,
       failPrefixEvents cfg [1] 0 .failPublish ++ [.logError, .sleep 10, .requeue [1]],
       .loopAgain⟩ :=
  sender_error_backoff_and_requeue_back _ ⟨[[1], [2]]⟩ [1] [[2]] .failPublish 0 rfl rfl

/-- C5: every successfully published message is handled by a fresh
per-message connection cycle. A successful iteration dequeues the
message, opens connection `connId`, opens a channel on it, declares the
exchange, publishes with the configured routing key, and closes that same
connection — all within the one iteration; and a run of `n` successful
iterations produces exactly the concatenation of such per-message blocks,
each block closing its own connection before the next block opens the
next one, so no connection persists across two messages. -/
theorem sender_fresh_connection_per_message (config : RabbitMQConfig) :
    (∀ (q : PyQueue) (data : Msg) (rest : List Msg) (connId : Nat),
      q.items = data :: rest →
      sendIter false false config q .ok connId =
        ⟨⟨rest⟩, okBlock config connId data, .loopAgain⟩) ∧
    (∀ (outs : List SendOutcome) (q : PyQueue) (connId : Nat),
      (∀ o ∈ outs, o = .ok) → outs.length ≤ q.items.length →
      sendRun config q outs connId =
        (⟨q.items.drop outs.length⟩,
         okTrace config connId (q.items.take outs.length))) := by
  constructor
  · intro q data rest connId hq
    obtain ⟨items⟩ := q
    simp only [PyQueue.mk.injEq] at hq
    subst hq
    simp [sendIter, PyQueue.get, okBlock]
  · intro outs
    induction outs with
    | nil => intro q connId _ _; simp [sendRun, okTrace]
    | cons o rest ih =>
        intro q connId hok hlen
        have ho : o = .ok := hok o (by simp)
        subst ho
        obtain ⟨items⟩ := q
        cases items with
        | nil => simp at hlen
        | cons d ds =>
            have hrest := ih ⟨ds⟩ (connId + 1)
              (fun x hx => hok x (by simp [hx]))
              (by simpa using Nat.le_of_succ_le_succ hlen)
            simp [sendRun, sendIter, PyQueue.get, okTrace, okBlock, hrest]

/-- C5 witness: one successful publish from the queue `[[9]]` with
connection id 0 yields exactly the fresh-connection block. -/
theorem sender_fresh_connection_per_message_witness :
    let cfg := RabbitMQConfig.make "h" 5672 "u" "p" "ex" "direct" "rk" false
    sendIter false false cfg ⟨[[9]]⟩ .ok 0 =
      ⟨⟨[]⟩, okBlock cfg 0 [9], .loopAgain⟩ :=
  (sender_fresh_connection_per_message _).1 ⟨[[9]]⟩ [9] [] 0 rfl

/-- C6: a failing push onto the inbound queue is logged and swallowed
inside the delivery callback. The callback returns normally with the
config unchanged and the error flag set; a failing delivery in the
consume stream adds one logged error and processing continues with the
remaining deliveries; and every successful delivery still lands on the
inbound queue in order even when failures are interleaved — the consume
loop is never interrupted by a local push fault. -/
theorem receiver_local_push_fault_swallowed :
    (∀ (config : RabbitMQConfig) (body : Msg),
      recvCallback config true body = (config, true)) ∧
    (∀ (config : RabbitMQConfig) (body : Msg) (rest : List (Msg × Bool)),
      consumeDeliveries config ((body, true) :: rest) =
        ((consumeDeliveries config rest).1, 1 + (consumeDeliveries config rest).2)) ∧
    (∀ (config : RabbitMQConfig) (q : PyQueue) (ds : List (Msg × Bool)),
      config.message_queue = some q →
      ((consumeDeliveries config ds).1).message_queue =
        some ⟨q.items ++ (ds.filter (fun d => !d.2)).map Prod.fst⟩) := by
  refine ⟨?_, ?_, ?_⟩
  · intro config body
    cases hmq : config.message_queue <;>
      simp [recvCallback, queuePutAttempt, hmq]
  · intro config body rest
    have hcb : recvCallback config true body = (config, true) := by
      cases hmq : config.message_queue <;>
        simp [recvCallback, queuePutAttempt, hmq]
    simp [consumeDeliveries, hcb]
  · intro config q ds
    induction ds generalizing config q with
    | nil => intro hmq; simp [consumeDeliveries, hmq]
    | cons d rest ih =>
        intro hmq
        obtain ⟨body, fails⟩ := d
        cases fails with
        | false =>
            have hcb : recvCallback config false body =
                ({ config with message_queue := some (q.put body) }, false) := by
              simp [recvCallback, queuePutAttempt, hmq]
            have hr := ih { config with message_queue := some (q.put body) } (q.put body) rfl
            simp [PyQueue.put] at hr
            simp [consumeDeliveries, hcb, hr, PyQueue.put, List.append_assoc]
        | true =>
            have hcb : recvCallback config true body = (config, true) := by
              simp [recvCallback, queuePutAttempt, hmq]
            have := ih config q hmq
            simp [consumeDeliveries, hcb, this]

/-- C6 witness: with an initially empty inbound queue and deliveries
`[1]` (ok), `[2]` (push fails), `[3]` (ok), the final queue holds
`[[1], [3]]`: the failure neither stopped the loop nor lost later
messages. -/
theorem receiver_local_push_fault_swallowed_witness :
    let cfg := RabbitMQConfig.make "h" 5672 "u" "p" "ex" "direct" "rk" false
    ((consumeDeliveries cfg [([1], false), ([2], true), ([3], false)]).1).message_queue =
      some ⟨[[1], [3]]⟩ := by
  have h := (receiver_local_push_fault_swallowed).2.2
    (RabbitMQConfig.make "h" 5672 "u" "p" "ex" "direct" "rk" false)
    PyQueue.empty [([1], false), ([2], true), ([3], false)] rfl
  simpa [PyQueue.empty] using h

/-- C7 counterexample: with a freshly constructed config (channel null),
one receiver iteration that opens channel 7 and then hits a connection
error (shutdown not set) ends in the retry backoff with
`config.channel = some 7` — the handle is NOT null while the worker is
disconnected and waiting to retry, contradicting the claimed invariant. -/
theorem receiver_channel_null_counterexample :
    let cfg := RabbitMQConfig.make "h" 5672 "u" "p" "ex" "direct" "rk" false
    let r := recvIter false false cfg .errAfterChannelSet 7
    r.events = [.connectR 7, .setChannel 7, .logErrorR, .sleepR 10] ∧
    r.ctl = .loopAgain ∧
    r.config.channel = some 7 := by
  decide

/-- C7 amended: the connection handle starts null at construction and is
set by the worker when it opens a channel, but it is never cleared: after
any receiver iteration the field either keeps its previous value or holds
the newly opened handle — in particular, after a connection error past
the channel-open point, the stale handle (not null) persists through the
WAIT_RETRY backoff. -/
theorem receiver_channel_handle_sticky :
    (∀ (host : String) (port : Nat) (user password en et rk : String) (tls : Bool),
      (RabbitMQConfig.make host port user password en et rk tls).channel = none) ∧
    (∀ (st se : Bool) (config : RabbitMQConfig) (o : RecvOutcome) (h : ChannelHandle),
      (recvIter st se config o h).config.channel = config.channel ∨
      (recvIter st se config o h).config.channel = some h) ∧
    (∀ (config : RabbitMQConfig) (h : ChannelHandle),
      (recvIter false false config .errAfterChannelSet h).config.channel = some h ∧
      RecvEvent.sleepR 10 ∈ (recvIter false false config .errAfterChannelSet h).events) := by
  refine ⟨fun _ _ _ _ _ _ _ _ => rfl, ?_, ?_⟩
  · intro st se config o h
    cases st <;> cases se <;> cases o <;> simp [recvIter]
  · intro config h
    simp [recvIter]

/-- Membership in the join-and-maybe-warn block of one thread. -/
theorem mem_join_block (t : WorkerThread) (e : ShutdownEvent) :
    e ∈ (ShutdownEvent.joinThread t.name 5 ::
          (if t.aliveAfterJoin then [ShutdownEvent.warnTimeout t.name] else [])) ↔
      (e = ShutdownEvent.joinThread t.name 5 ∨
       (t.aliveAfterJoin = true ∧ e = ShutdownEvent.warnTimeout t.name)) := by
  cases hta : t.aliveAfterJoin <;> simp [hta]

/-- C2: `shutdown` always returns (a total function with a plain result,
no error outcome): it sets the shared shutdown event, emits a
stop-consuming request exactly for the receivers whose connection handle
is set, joins every recorded worker thread with the bounded 5-unit
timeout, warns only about threads still alive after their join, and runs
through to its final completion log. -/
theorem shutdown_always_returns (m : RabbitMQManager) :
    (m.shutdown).1 = { m with shutdown_event := true } ∧
    (m.shutdown).1.shutdown_event = true ∧
    (∀ h : ChannelHandle,
      ShutdownEvent.stopConsuming h ∈ (m.shutdown).2 ↔
        ∃ p ∈ m.receivers, p.2.channel = some h) ∧
    (∀ t ∈ m.threads, ShutdownEvent.joinThread t.name 5 ∈ (m.shutdown).2) ∧
    (∀ n : String, ShutdownEvent.warnTimeout n ∈ (m.shutdown).2 →
      ∃ t ∈ m.threads, t.name = n ∧ t.aliveAfterJoin = true) ∧
    (m.shutdown).2.getLast? = some ShutdownEvent.doneLog := by
  refine ⟨rfl, rfl, ?_, ?_, ?_, ?_⟩
  · intro h
    simp [RabbitMQManager.shutdown, List.mem_flatMap, mem_join_block,
      List.mem_filterMap, Option.map_eq_some']
  · intro t ht
    simp [RabbitMQManager.shutdown, List.mem_flatMap, mem_join_block]
    exact ⟨t, ht, rfl⟩
  · intro n hn
    simp [RabbitMQManager.shutdown, List.mem_flatMap, mem_join_block,
      List.mem_filterMap, Option.map_eq_some'] at hn
    obtain ⟨t, ht, hta, hname⟩ := hn
    exact ⟨t, ht, hname.symm, hta⟩
  · have hshape : (m.shutdown).2 =
        (ShutdownEvent.setFlag ::
          (m.receivers.filterMap (fun p => p.2.channel.map ShutdownEvent.stopConsuming) ++
           m.threads.flatMap (fun t =>
             ShutdownEvent.joinThread t.name 5 ::
               (if t.aliveAfterJoin then [ShutdownEvent.warnTimeout t.name] else [])))) ++
          [ShutdownEvent.doneLog] := by
      simp [RabbitMQManager.shutdown]
    rw [hshape, List.getLast?_concat]

/-- C2 witness: shutdown of a concrete manager with one connected
receiver (handle 3) and one worker thread that outlives its join: the
event is set, the stop request and the 5-unit join are in the trace, and
the trace still ends with the completion log. -/
theorem shutdown_always_returns_witness :
    let cfg3 := { RabbitMQConfig.make "h" 5672 "u" "p" "ex" "direct" "rk" false with
                  channel := some 3 }
    let m : RabbitMQManager :=
      { senders := [], receivers := [("ex/rk", cfg3)],
        threads := [⟨"t0", true⟩], shutdown_event := false }
    (m.shutdown).1.shutdown_event = true ∧
    ShutdownEvent.stopConsuming 3 ∈ (m.shutdown).2 ∧
    ShutdownEvent.joinThread "t0" 5 ∈ (m.shutdown).2 ∧
    (m.shutdown).2.getLast? = some ShutdownEvent.doneLog := by
  intro cfg3 m
  have h := shutdown_always_returns m
  exact ⟨h.2.1, (h.2.2.1 3).mpr ⟨("ex/rk", cfg3), by simp [m], rfl⟩,
    h.2.2.2.1 ⟨"t0", true⟩ (by simp [m]), h.2.2.2.2.2⟩

end RabbitMQ
